import Mathlib

/-!
A verification development for the `governance-contracts` repository
fragment, covering:

* the epoch-advancement test helper `elapseEpoch`
  (`src/test/tx-builder/safety-module.spec.ts`, lines 327-335);
* the named-snapshot store `saveSnapshot` / `loadSnapshot`
  (`src/test/tx-builder/safety-module.spec.ts`, lines 337-348);
* the proposal-submission routine `createGrantsProgramProposal`
  (`src/src/migrations/grants-program-proposal.ts`);
* the staking scenarios exercised by the test suite, modelled from the
  specification where the safety-module contract itself is not part of
  the fragment.

TypeScript numbers and on-chain integers are embedded as `Int` / `Nat`;
stateful code is embedded as explicit state passing; fallible code
returns `Except`.
-/

namespace GovernanceContracts

/-! ## Simulated chain time (`misc-utils` time helpers)

`increaseTime` bumps the simulated timestamp without mining;
`increaseTimeAndMine` additionally mines a block committing the new
timestamp.  Modelled from the spec: the chain-time control collaborator
("increase time", "increase time and mine") is backed by the simulated
network's debug RPC surface and is not part of the fragment. -/

structure EvmState where
  time : Int
  blockNumber : Nat
  deriving Repr, DecidableEq

def increaseTime (d : Int) (s : EvmState) : EvmState :=
  { s with time := s.time + d }

def increaseTimeAndMine (d : Int) (s : EvmState) : EvmState :=
  { time := s.time + d, blockNumber := s.blockNumber + 1 }

/-! ## The epoch-advancement helper

`safety-module.spec.ts`, lines 327-335:

```ts
async function elapseEpoch(mineBlock: boolean = true): Promise<void> {
  let remaining = (await safetyModule.getTimeRemainingInCurrentEpoch()).toNumber();
  remaining ||= EPOCH_LENGTH.toNumber();
  if (mineBlock) {
    await increaseTimeAndMine(remaining);
  } else {
    await increaseTime(remaining);
  }
}
```

`remaining ||= EPOCH_LENGTH` replaces a falsy (here: zero) remaining
time with the epoch length.  The helper is parameterised by the value
the contract reports (`remaining`) and by the `EPOCH_LENGTH` constant,
whose definition lives outside the fragment. -/

def elapseEpochAdvance (epochLength remaining : Int) : Int :=
  if remaining = 0 then epochLength else remaining

def elapseEpoch (epochLength remaining : Int) (mineBlock : Bool) (s : EvmState) :
    EvmState :=
  let d := elapseEpochAdvance epochLength remaining
  if mineBlock then increaseTimeAndMine d s else increaseTime d s

theorem elapseEpoch_time (epochLength remaining : Int) (mineBlock : Bool)
    (s : EvmState) :
    (elapseEpoch epochLength remaining mineBlock s).time =
      s.time + elapseEpochAdvance epochLength remaining := by
  unfold elapseEpoch increaseTimeAndMine increaseTime
  cases mineBlock <;> simp

/-- C1: for every call of `elapseEpoch`, if the contract reports remaining
time exactly zero, simulated chain time is advanced by exactly
`EPOCH_LENGTH` (not by zero, given that the epoch length is positive);
otherwise it is advanced by exactly the reported remaining time. -/
theorem elapseEpoch_boundary_substitution (epochLength remaining : Int)
    (mineBlock : Bool) (s : EvmState) (hE : 0 < epochLength) :
    (remaining = 0 →
      (elapseEpoch epochLength remaining mineBlock s).time = s.time + epochLength ∧
      (elapseEpoch epochLength remaining mineBlock s).time ≠ s.time) ∧
    (remaining ≠ 0 →
      (elapseEpoch epochLength remaining mineBlock s).time = s.time + remaining) := by
  constructor
  · intro h0
    rw [elapseEpoch_time, elapseEpochAdvance, if_pos h0]
    exact ⟨rfl, by omega⟩
  · intro hne
    rw [elapseEpoch_time, elapseEpochAdvance, if_neg hne]

/-- Witness for C1 at epoch length 604800 and remaining time 0. -/
theorem elapseEpoch_boundary_substitution_witness :
    ((0 : Int) = 0 →
      (elapseEpoch 604800 0 true ⟨1000, 5⟩).time = 1000 + 604800 ∧
      (elapseEpoch 604800 0 true ⟨1000, 5⟩).time ≠ 1000) ∧
    ((0 : Int) ≠ 0 →
      (elapseEpoch 604800 0 true ⟨1000, 5⟩).time = 1000 + 0) :=
  elapseEpoch_boundary_substitution 604800 0 true ⟨1000, 5⟩ (by decide)

/-- C10: for every call of `elapseEpoch`, assuming the reported remaining
time is non-negative and the epoch length is positive, the simulated time
advanced is strictly positive: the timestamp strictly increases. -/
theorem elapseEpoch_advances_positively (epochLength remaining : Int)
    (mineBlock : Bool) (s : EvmState) (hr : 0 ≤ remaining) (hE : 0 < epochLength) :
    s.time < (elapseEpoch epochLength remaining mineBlock s).time := by
  rw [elapseEpoch_time, elapseEpochAdvance]
  split
  · omega
  · omega

/-- Witness for C10 at epoch length 604800 and remaining time 0. -/
theorem elapseEpoch_advances_positively_witness :
    (1000 : Int) < (elapseEpoch 604800 0 true ⟨1000, 5⟩).time :=
  elapseEpoch_advances_positively 604800 0 true ⟨1000, 5⟩ (by decide) (by decide)

/-! ## The snapshot facility of the simulated chain

Modelled from the spec: `evmSnapshot` and `evmRevert`
(`helpers/misc-utils`, not part of the fragment) capture a point-in-time
state of the simulated chain under an opaque string handle and restore
chain state to a previously captured handle.  The provider keeps the
current chain state, a counter for fresh handles, and the captured
states; handles are the nonempty strings `"0x1"`, `"0x2"`, ... -/

structure Provider where
  chain : EvmState
  nextHandle : Nat
  saved : List (String × EvmState)
  deriving Repr, DecidableEq

def freshHandle (p : Provider) : String :=
  "0x" ++ toString p.nextHandle

def evmSnapshot (p : Provider) : String × Provider :=
  let h := freshHandle p
  (h, { p with nextHandle := p.nextHandle + 1, saved := (h, p.chain) :: p.saved })

def evmRevert (h : String) (p : Provider) : Provider :=
  match p.saved.lookup h with
  | some st => { p with chain := st }
  | none => p

/-! ## The named-snapshot store

`safety-module.spec.ts`, lines 27 and 337-348:

```ts
const snapshots = new Map<string, string>();

async function saveSnapshot(label: string): Promise<void> {
  snapshots.set(label, await evmSnapshot());
}

async function loadSnapshot(label: string): Promise<void> {
  const snapshot = snapshots.get(label);
  if (!snapshot) {
    throw new Error(`Cannot load since snapshot has not been saved: ${label}`);
  }
  await evmRevert(snapshot);
  snapshots.set(label, await evmSnapshot());
}
```

The JS `Map` is embedded as an association list where `set` prepends
(later entries shadow earlier ones, matching `Map.set` overwriting).
`!snapshot` is truthy when `get` returns `undefined` or the empty
string, so both cases throw. -/

abbrev SnapshotStore := List (String × String)

def mapSet (m : SnapshotStore) (k v : String) : SnapshotStore :=
  (k, v) :: m

def mapGet (m : SnapshotStore) (k : String) : Option String :=
  m.lookup k

def saveSnapshot (label : String) (store : SnapshotStore) (p : Provider) :
    SnapshotStore × Provider :=
  let (h, p1) := evmSnapshot p
  (mapSet store label h, p1)

def snapshotMissing (o : Option String) : Bool :=
  match o with
  | none => true
  | some s => s = ""

def loadSnapshot (label : String) (store : SnapshotStore) (p : Provider) :
    Except String (SnapshotStore × Provider) :=
  let snapshot := mapGet store label
  if snapshotMissing snapshot then
    .error ("Cannot load since snapshot has not been saved: " ++ label)
  else
    match snapshot with
    | none => .error ("Cannot load since snapshot has not been saved: " ++ label)
    | some h =>
      let p1 := evmRevert h p
      let (h2, p2) := evmSnapshot p1
      .ok (mapSet store label h2, p2)

/-- C3: for every label with no saved handle in the snapshot store,
`loadSnapshot` fails with an error message identifying the missing label;
no restored state or updated store is produced. -/
theorem loadSnapshot_missing_label (label : String) (store : SnapshotStore)
    (p : Provider) (h : mapGet store label = none) :
    loadSnapshot label store p =
      .error ("Cannot load since snapshot has not been saved: " ++ label) := by
  unfold loadSnapshot
  rw [h]
  rfl

/-- Witness for C3: loading any label from the empty store fails with the
message naming the label. -/
theorem loadSnapshot_missing_label_witness :
    loadSnapshot "AfterStack" [] ⟨⟨0, 0⟩, 0, []⟩ =
      .error ("Cannot load since snapshot has not been saved: " ++ "AfterStack") :=
  loadSnapshot_missing_label "AfterStack" [] ⟨⟨0, 0⟩, 0, []⟩ rfl

/-- A generated handle is never the empty string, so the falsy check in
`loadSnapshot` never rejects it. -/
theorem freshHandle_ne_empty (p : Provider) : freshHandle p ≠ "" := by
  intro hc
  have hd : (freshHandle p).data = "".data := congrArg String.data hc
  rw [freshHandle] at hd
  simp [String.data_append] at hd

/-- Helper: evaluating `loadSnapshot` when the label maps to a nonempty
handle whose captured state is found by the provider. -/
theorem loadSnapshot_found (label hdl : String) (store : SnapshotStore)
    (p : Provider) (st : EvmState) (hget : mapGet store label = some hdl)
    (hne : hdl ≠ "") (hst : p.saved.lookup hdl = some st) :
    loadSnapshot label store p =
      .ok (mapSet store label (freshHandle p),
        ⟨st, p.nextHandle + 1, (freshHandle p, st) :: p.saved⟩) := by
  simp only [loadSnapshot, hget, snapshotMissing, evmRevert, hst, evmSnapshot,
    freshHandle]
  rw [if_neg (by simpa using hne)]

/-- C4: for every label with a saved handle, a successful `loadSnapshot`
restores chain state to that handle's captured state and then saves a
fresh snapshot handle under the same label, so afterwards the store maps
the label to a handle capturing the just-restored state. -/
theorem loadSnapshot_restores_and_resaves (label hdl : String)
    (store : SnapshotStore) (p : Provider) (st : EvmState)
    (hget : mapGet store label = some hdl) (hne : hdl ≠ "")
    (hst : p.saved.lookup hdl = some st) :
    ∃ store1 : SnapshotStore, ∃ p1 : Provider,
      loadSnapshot label store p = .ok (store1, p1) ∧
      p1.chain = st ∧
      mapGet store1 label = some (freshHandle p) ∧
      p1.saved.lookup (freshHandle p) = some p1.chain := by
  refine ⟨mapSet store label (freshHandle p),
    ⟨st, p.nextHandle + 1, (freshHandle p, st) :: p.saved⟩,
    loadSnapshot_found label hdl store p st hget hne hst, rfl, ?_, ?_⟩
  · simp [mapGet, mapSet, List.lookup]
  · simp [List.lookup]

/-- Witness for C4: a store whose label maps to handle `"0x0"` captured at
chain state `⟨7, 3⟩`. -/
theorem loadSnapshot_restores_and_resaves_witness :
    ∃ store1 : SnapshotStore, ∃ p1 : Provider,
      loadSnapshot "AfterStack" [("AfterStack", "0x0")]
          ⟨⟨42, 9⟩, 1, [("0x0", ⟨7, 3⟩)]⟩ = .ok (store1, p1) ∧
      p1.chain = ⟨7, 3⟩ ∧
      mapGet store1 "AfterStack" =
        some (freshHandle ⟨⟨42, 9⟩, 1, [("0x0", ⟨7, 3⟩)]⟩) ∧
      p1.saved.lookup (freshHandle ⟨⟨42, 9⟩, 1, [("0x0", ⟨7, 3⟩)]⟩) =
        some p1.chain :=
  loadSnapshot_restores_and_resaves "AfterStack" "0x0" [("AfterStack", "0x0")]
    ⟨⟨42, 9⟩, 1, [("0x0", ⟨7, 3⟩)]⟩ ⟨7, 3⟩ rfl (by decide) rfl

/-- C7: loading the same label twice in succession, with no intervening
state-changing operations, restores the identical chain state both times,
so every read-only query after the first load agrees with the same query
after the second load. -/
theorem loadSnapshot_idempotent (label hdl : String) (store : SnapshotStore)
    (p : Provider) (st : EvmState) (hget : mapGet store label = some hdl)
    (hne : hdl ≠ "") (hst : p.saved.lookup hdl = some st) :
    ∃ store1 : SnapshotStore, ∃ p1 : Provider,
    ∃ store2 : SnapshotStore, ∃ p2 : Provider,
      loadSnapshot label store p = .ok (store1, p1) ∧
      loadSnapshot label store1 p1 = .ok (store2, p2) ∧
      p2.chain = p1.chain := by
  refine ⟨mapSet store label (freshHandle p),
    ⟨st, p.nextHandle + 1, (freshHandle p, st) :: p.saved⟩, _, _,
    loadSnapshot_found label hdl store p st hget hne hst,
    loadSnapshot_found label (freshHandle p) _ _ st ?_ (freshHandle_ne_empty p) ?_,
    rfl⟩
  · simp [mapGet, mapSet, List.lookup]
  · simp [List.lookup]

/-- Witness for C7 on the same concrete store and provider as C4's. -/
theorem loadSnapshot_idempotent_witness :
    ∃ store1 : SnapshotStore, ∃ p1 : Provider,
    ∃ store2 : SnapshotStore, ∃ p2 : Provider,
      loadSnapshot "AfterStack" [("AfterStack", "0x0")]
          ⟨⟨42, 9⟩, 1, [("0x0", ⟨7, 3⟩)]⟩ = .ok (store1, p1) ∧
      loadSnapshot "AfterStack" store1 p1 = .ok (store2, p2) ∧
      p2.chain = p1.chain :=
  loadSnapshot_idempotent "AfterStack" "0x0" [("AfterStack", "0x0")]
    ⟨⟨42, 9⟩, 1, [("0x0", ⟨7, 3⟩)]⟩ ⟨7, 3⟩ rfl (by decide) rfl

/-! ## The Grants Program proposal routine

`src/src/migrations/grants-program-proposal.ts`.  ABI encoding is a
pass-through to the provider library; it is embedded as an injective
constructor pairing the declared parameter types with the arguments. -/

structure AbiEncoded where
  types : List String
  args : List String
  deriving Repr, DecidableEq

def abiEncode (types args : List String) : AbiEncoded :=
  ⟨types, args⟩

/-- The `Proposal` tuple from `src/types`: (executor, targets, values,
signatures, calldatas, withDelegatecalls, ipfsHash). -/
structure Proposal where
  executor : String
  targets : List String
  values : List String
  signatures : List String
  calldatas : List AbiEncoded
  withDelegatecalls : List Bool
  ipfsHash : String
  deriving Repr, DecidableEq

/-- Modelled from the spec: the deployment-configuration collaborator
supplies a multisig recipient address and a funding amount; read-only. -/
structure DeployConfig where
  DGP_MULTISIG_ADDRESS : String
  DGP_FUNDING_AMOUNT : String
  deriving Repr, DecidableEq

/-- Modelled from the spec: the governor contract records proposals;
`getProposalsCount` returns how many it holds, and a confirmed `create`
transaction appends one proposal. -/
structure GovernorState where
  proposals : List Proposal
  deriving Repr, DecidableEq

def getProposalsCount (g : GovernorState) : Nat :=
  g.proposals.length

def governorCreate (p : Proposal) (g : GovernorState) : GovernorState :=
  { g with proposals := g.proposals ++ [p] }

/-- The proposal literal built at lines 37-48 of
`grants-program-proposal.ts`. -/
def grantsProposal (shortTimelockAddress communityTreasuryAddress
    dydxTokenAddress : String) (deployConfig : DeployConfig)
    (proposalIpfsHashHex : String) : Proposal :=
  { executor := shortTimelockAddress
    targets := [communityTreasuryAddress]
    values := ["0"]
    signatures := ["transfer(address,address,uint256)"]
    calldatas := [abiEncode ["address", "address", "uint256"]
      [dydxTokenAddress, deployConfig.DGP_MULTISIG_ADDRESS,
        deployConfig.DGP_FUNDING_AMOUNT]]
    withDelegatecalls := [false]
    ipfsHash := proposalIpfsHashHex }

/-- `createGrantsProgramProposal`: reads the proposal count, builds the
proposal, sends the `create` transaction and waits for confirmation
(embedded as the governor state after the transaction applies), and
returns the pre-submission count as `proposalId`. -/
def createGrantsProgramProposal (proposalIpfsHashHex dydxTokenAddress
    shortTimelockAddress communityTreasuryAddress : String)
    (deployConfig : DeployConfig) (g : GovernorState) : Nat × GovernorState :=
  let proposalId := getProposalsCount g
  let proposal := grantsProposal shortTimelockAddress communityTreasuryAddress
    dydxTokenAddress deployConfig proposalIpfsHashHex
  (proposalId, governorCreate proposal g)

/-- C5: every successful run of `createGrantsProgramProposal` returns the
proposal count read before submission, even though the confirmed
transaction has already raised the governor's count by one (the returned
count is informational and is not re-checked after submission). -/
theorem createGrantsProgramProposal_returns_presubmission_count
    (ipfs token timelock treasury : String) (cfg : DeployConfig)
    (g : GovernorState) :
    (createGrantsProgramProposal ipfs token timelock treasury cfg g).1 =
      getProposalsCount g ∧
    getProposalsCount
        (createGrantsProgramProposal ipfs token timelock treasury cfg g).2 =
      getProposalsCount g + 1 := by
  refine ⟨rfl, ?_⟩
  simp [createGrantsProgramProposal, governorCreate, getProposalsCount]

/-- C6: the proposal submitted by `createGrantsProgramProposal` has exactly
one action: single target (the community treasury), single ETH value "0",
single signature for the token transfer, single call-data blob encoding
(token, configured multisig, configured amount), single delegate-call flag
`false`, the short timelock as executor and the given IPFS hash. -/
theorem grantsProposal_single_transfer_action
    (ipfs token timelock treasury : String) (cfg : DeployConfig)
    (g : GovernorState) :
    ∃ p : Proposal,
      (createGrantsProgramProposal ipfs token timelock treasury cfg g).2 =
        governorCreate p g ∧
      p.executor = timelock ∧
      p.targets = [treasury] ∧
      p.values = ["0"] ∧
      p.signatures = ["transfer(address,address,uint256)"] ∧
      p.calldatas = [abiEncode ["address", "address", "uint256"]
        [token, cfg.DGP_MULTISIG_ADDRESS, cfg.DGP_FUNDING_AMOUNT]] ∧
      p.withDelegatecalls = [false] ∧
      p.ipfsHash = ipfs :=
  ⟨grantsProposal timelock treasury token cfg ipfs,
    rfl, rfl, rfl, rfl, rfl, rfl, rfl, rfl⟩

/-! ## The staking safety module, as exercised by the test suite

Modelled from the spec: the safety-module contract (stake, request
withdrawal, withdraw, claim, reward accrual, epoch accounting) is an
external collaborator of the fragment; its behaviour below follows the
specification's description of the scenarios the suite asserts.  Amounts
are in wei; the transaction-builder service converts its human-unit
string arguments with `parseNumberToEthersBigNumber(amount,
DYDX_TOKEN_DECIMALS)`, i.e. multiplication by `10 ^ 18`.  The model
tracks the single staker of the suite, who holds the entire stake, with
the rewards rate fixed at `1e10` per second as set by the suite's
initialization (`setRewardsPerSecond(1e10)`). -/

def DYDX_TOKEN_DECIMALS : Nat := 18

def toWei (amountTokens : Nat) : Nat :=
  amountTokens * 10 ^ DYDX_TOKEN_DECIMALS

def rewardsPerSecond : Nat := 10 ^ 10

structure StakingState where
  time : Nat
  balance : Nat
  staked : Nat
  pendingWithdraw : Nat
  availableToWithdraw : Nat
  unclaimedRewards : Nat
  deriving Repr, DecidableEq

def getTotalStake (s : StakingState) : Nat :=
  s.staked + s.pendingWithdraw + s.availableToWithdraw

/-- Modelled from the spec: rewards accrue per second on a nonzero active
stake; `d` seconds of simulated time pass. -/
def advanceStakingTime (d : Nat) (s : StakingState) : StakingState :=
  { s with
    time := s.time + d,
    unclaimedRewards := s.unclaimedRewards +
      (if 0 < s.staked then rewardsPerSecond * d else 0) }

/-- Modelled from the spec: staking moves funds from the free balance into
the active stake. -/
def stake (wei : Nat) (s : StakingState) : StakingState :=
  { s with balance := s.balance - wei, staked := s.staked + wei }

/-- Modelled from the spec: a withdrawal request marks part of the active
stake as pending until the next epoch boundary. -/
def requestWithdrawal (wei : Nat) (s : StakingState) : StakingState :=
  { s with staked := s.staked - wei, pendingWithdraw := s.pendingWithdraw + wei }

/-- Modelled from the spec: at an epoch boundary every pending request
becomes available to withdraw. -/
def settleEpochBoundary (s : StakingState) : StakingState :=
  { s with
    pendingWithdraw := 0,
    availableToWithdraw := s.availableToWithdraw + s.pendingWithdraw }

/-- One full epoch elapses: time passes, then the boundary settles. -/
def elapseOneEpoch (epochLength : Nat) (s : StakingState) : StakingState :=
  settleEpochBoundary (advanceStakingTime epochLength s)

/-- Modelled from the spec: withdrawing moves available funds back to the
free balance. -/
def withdraw (wei : Nat) (s : StakingState) : StakingState :=
  { s with
    availableToWithdraw := s.availableToWithdraw - wei,
    balance := s.balance + wei }

/-- Modelled from the spec: claiming transfers the unclaimed rewards to
the staker's token balance. -/
def claimRewards (s : StakingState) : StakingState :=
  { s with balance := s.balance + s.unclaimedRewards, unclaimedRewards := 0 }

/-! Service wrappers: the transaction builder takes amounts as decimal
strings in token units and converts to wei; `withdrawStake` accepts the
sentinel `'-1'` meaning "withdraw all eligible". -/

def serviceStake (amountTokens : Nat) (s : StakingState) : StakingState :=
  stake (toWei amountTokens) s

def serviceRequestWithdrawal (amountTokens : Nat) (s : StakingState) :
    StakingState :=
  requestWithdrawal (toWei amountTokens) s

def serviceWithdrawStake (amount : Int) (s : StakingState) : StakingState :=
  if amount = -1 then withdraw s.availableToWithdraw s
  else withdraw (toWei amount.toNat) s

/-- The suite's staker: initial free balance `10^24` wei, nothing staked. -/
def initialStakingState : StakingState :=
  ⟨0, 10 ^ 24, 0, 0, 0, 0⟩

/-- C2: with a nonzero staked balance and nonzero elapsed time after
staking, claiming rewards strictly increases the staker's token balance. -/
theorem claimRewards_strictly_increases_balance (s : StakingState) (d : Nat)
    (hstake : 0 < s.staked) (hd : 0 < d) :
    (advanceStakingTime d s).balance <
      (claimRewards (advanceStakingTime d s)).balance := by
  simp only [advanceStakingTime, claimRewards, if_pos hstake, rewardsPerSecond]
  have hp : 0 < 10 ^ 10 * d := by positivity
  omega

/-- Witness for C2: one staked wei and one elapsed second. -/
theorem claimRewards_strictly_increases_balance_witness :
    (advanceStakingTime 1 ⟨0, 0, 1, 0, 0, 0⟩).balance <
      (claimRewards (advanceStakingTime 1 ⟨0, 0, 1, 0, 0, 0⟩)).balance :=
  claimRewards_strictly_increases_balance ⟨0, 0, 1, 0, 0, 0⟩ 1
    (by decide) (by decide)

/-- C8: staking `10^6` tokens from an initial balance of `10^24` wei makes
the total stake `10^6` tokens; requesting full withdrawal makes the
pending-withdraw amount `10^6` tokens immediately; one epoch later the
available-to-withdraw amount is `10^6` tokens; withdrawing the full amount
restores the free balance to exactly `10^24` wei. -/
theorem full_withdrawal_round_trip (epochLength : Nat) :
    getTotalStake (serviceStake 1000000 initialStakingState) =
      toWei 1000000 ∧
    (serviceRequestWithdrawal 1000000
        (serviceStake 1000000 initialStakingState)).pendingWithdraw =
      toWei 1000000 ∧
    (elapseOneEpoch epochLength (serviceRequestWithdrawal 1000000
        (serviceStake 1000000 initialStakingState))).availableToWithdraw =
      toWei 1000000 ∧
    (serviceWithdrawStake 1000000 (elapseOneEpoch epochLength
        (serviceRequestWithdrawal 1000000
          (serviceStake 1000000 initialStakingState)))).balance =
      10 ^ 24 := by
  refine ⟨?_, ?_, ?_, ?_⟩ <;>
    simp [getTotalStake, serviceStake, serviceRequestWithdrawal,
      serviceWithdrawStake, elapseOneEpoch, settleEpochBoundary,
      advanceStakingTime, stake, requestWithdrawal, withdraw, toWei,
      initialStakingState, DYDX_TOKEN_DECIMALS]

/-- C9: staking `10^6` tokens, requesting withdrawal of half (`5×10^5`),
waiting one epoch, then withdrawing with the max sentinel `-1` leaves the
free balance at `10^24 - 5×10^5` tokens in wei; exactly the still-staked
half remains locked. -/
theorem max_withdrawal_leaves_half_locked (epochLength : Nat) :
    (serviceWithdrawStake (-1) (elapseOneEpoch epochLength
        (serviceRequestWithdrawal 500000
          (serviceStake 1000000 initialStakingState)))).balance =
      10 ^ 24 - toWei 500000 ∧
    (serviceWithdrawStake (-1) (elapseOneEpoch epochLength
        (serviceRequestWithdrawal 500000
          (serviceStake 1000000 initialStakingState)))).staked =
      toWei 500000 := by
  constructor <;>
    simp [serviceStake, serviceRequestWithdrawal, serviceWithdrawStake,
      elapseOneEpoch, settleEpochBoundary, advanceStakingTime, stake,
      requestWithdrawal, withdraw, toWei, initialStakingState,
      DYDX_TOKEN_DECIMALS]

end GovernanceContracts
